import Mathlib

/-!
Verification of `superset/connectors/base.py`.

A shallow embedding of the abstract datasource interface layer
(`BaseDatasource`, `BaseColumn`, `BaseMetric`) together with proofs of the
properties stated in the specification.

Modelling conventions:

* SQLAlchemy `Column` fields that are tested for Python truthiness in the code
  (`default_endpoint`, `verbose_name`, `d3format`, `type`) are embedded as
  `Option String`; the falsy values `None` and `""` are `Option.none` and
  `Option.some ""`.
* Python `sorted` is a stable comparison sort; it is embedded as the stable
  Mathlib `List.insertionSort` with the non-strict comparison corresponding to
  the Python key order.
* Methods that `raise NotImplementedError()` are embedded as functions into
  `Except PyError _` returning `Except.error PyError.notImplementedError`.
-/

namespace Superset

/-- The error kinds this layer can signal: only `NotImplementedError`. -/
inductive PyError where
  | notImplementedError
deriving Repr, DecidableEq

/-- Python values as they appear in the `data` dictionary sent to the frontend. -/
inductive PyVal where
  | none : PyVal
  | bool (b : Bool) : PyVal
  | int (n : Int) : PyVal
  | str (s : String) : PyVal
  | tuple (a b : PyVal) : PyVal
  | list (xs : List PyVal) : PyVal
  | dict (entries : List (String × PyVal)) : PyVal

/-- A query object is an opaque dictionary of the Superset query interface. -/
def QueryObj : Type := List (String × PyVal)

/-- Python truthiness of an optional string: `None` and `""` are falsy. -/
def truthyStr : Option String → Bool
  | Option.none => false
  | Option.some s => !s.data.isEmpty

/-- Python `v or d` for an optional string `v` and a string default `d`. -/
def orElseStr (v : Option String) (d : String) : String :=
  match v with
  | Option.some s => if s.data.isEmpty then d else s
  | Option.none => d

/-- Python `needle in hay` on the underlying character lists:
`needle` occurs contiguously inside `hay`. -/
def charsContain (needle : List Char) : List Char → Bool
  | [] => needle.isEmpty
  | c :: rest => needle.isPrefixOf (c :: rest) || charsContain needle rest

/-- Python `needle in hay` for strings (substring containment). -/
def pyIn (needle hay : String) : Bool :=
  charsContain needle.data hay.data

/-- Python `s.upper()`: uppercase each character.  (The Python `str.upper` is
Unicode-aware; per-character `Char.toUpper` agrees with it on the ASCII
characters that the fixed type vocabularies consist of.) -/
def pyUpper (s : String) : String :=
  String.mk (s.data.map Char.toUpper)

/-- The Python `<=` on strings: lexicographic comparison of the code-point
sequences. -/
def charListLe : List Char → List Char → Bool
  | [], _ => true
  | _ :: _, [] => false
  | a :: as, b :: bs => if a < b then true else if b < a then false else charListLe as bs

/-- The Python `<=` on strings, as a decidable relation on `String`. -/
def strle (a b : String) : Prop := charListLe a.data b.data = true

instance : DecidableRel strle := fun a b =>
  inferInstanceAs (Decidable (charListLe a.data b.data = true))

/-- The key order that Python `sorted(..., key=lambda x: x[1])` compares by. -/
def labelLe (a b : String × String) : Prop := strle a.2 b.2

instance : DecidableRel labelLe := fun a b => inferInstanceAs (Decidable (strle a.2 b.2))

/-- One lowercase hexadecimal digit. -/
def hexDigitChar (n : Nat) : Char :=
  if n < 10 then Char.ofNat (48 + n) else Char.ofNat (87 + n)

/-- Four lowercase hexadecimal digits, zero padded. -/
def hex4 (n : Nat) : String :=
  String.mk [hexDigitChar (n / 4096 % 16), hexDigitChar (n / 256 % 16),
    hexDigitChar (n / 16 % 16), hexDigitChar (n % 16)]

/-- How Python `json.dumps` (with its default `ensure_ascii=True`) renders a
single character inside a string literal: `"` and `\` are backslash-escaped,
the control characters with short escapes use them, remaining characters
outside the printable ASCII range `0x20`-`0x7e` become `\uXXXX` escapes
(a surrogate pair for code points beyond the basic multilingual plane). -/
def jsonEscapeChar (c : Char) : String :=
  if c = '"' then "\\\""
  else if c = '\\' then "\\\\"
  else if c = '\n' then "\\n"
  else if c = '\r' then "\\r"
  else if c = '\t' then "\\t"
  else if c.toNat = 8 then "\\b"
  else if c.toNat = 12 then "\\f"
  else if c.toNat < 32 then "\\u" ++ hex4 c.toNat
  else if c.toNat < 127 then String.singleton c
  else if c.toNat < 65536 then "\\u" ++ hex4 c.toNat
  else
    "\\u" ++ hex4 (55296 + (c.toNat - 65536) / 1024) ++
      "\\u" ++ hex4 (56320 + (c.toNat - 65536) % 1024)

/-- Python `json.dumps` of a string. -/
def jsonString (s : String) : String :=
  "\"" ++ String.join (s.data.map jsonEscapeChar) ++ "\""

/-- Python `json.dumps([s, b])` for a string `s` and a boolean `b`: the default
separator between the two elements is a comma followed by a space. -/
def jsonDumpsStrBool (s : String) (b : Bool) : String :=
  "[" ++ jsonString s ++ ", " ++ (if b then "true" else "false") ++ "]"

/-- Modelled from the spec: `superset.utils.choicify` lives in
`superset/utils.py`, which is outside the provided sources; per the spec it
"wraps a list of names into (value, label) pairs for UI dropdowns". -/
def choicify (values : List String) : List (String × String) :=
  values.map (fun x => (x, x))

/-- Embedding of `BaseColumn`: the per-column schema fields. -/
structure BaseColumn where
  id : Int := 0
  column_name : String
  verbose_name : Option String := Option.none
  is_active : Bool := true
  type : Option String := Option.none
  groupby : Bool := false
  count_distinct : Bool := false
  sum : Bool := false
  avg : Bool := false
  max : Bool := false
  min : Bool := false
  filterable : Bool := false
  description : Option String := Option.none
deriving Repr, DecidableEq

/-- The fixed numeric keyword vocabulary `BaseColumn.num_types`. -/
def num_types : List String :=
  ["DOUBLE", "FLOAT", "INT", "BIGINT", "LONG", "REAL", "NUMERIC"]

/-- The fixed temporal keyword vocabulary `BaseColumn.date_types`. -/
def date_types : List String := ["DATE", "TIME", "DATETIME"]

/-- The fixed string keyword vocabulary `BaseColumn.str_types`. -/
def str_types : List String := ["VARCHAR", "STRING", "CHAR"]

/-- The classifier `BaseColumn.is_num`: the truthiness of
`self.type and any([t in self.type.upper() for t in self.num_types])`. -/
def BaseColumn.is_num (c : BaseColumn) : Bool :=
  match c.type with
  | Option.none => false
  | Option.some t => !t.data.isEmpty && num_types.any (fun kw => pyIn kw (pyUpper t))

/-- The classifier `BaseColumn.is_time`. -/
def BaseColumn.is_time (c : BaseColumn) : Bool :=
  match c.type with
  | Option.none => false
  | Option.some t => !t.data.isEmpty && date_types.any (fun kw => pyIn kw (pyUpper t))

/-- The classifier `BaseColumn.is_string`. -/
def BaseColumn.is_string (c : BaseColumn) : Bool :=
  match c.type with
  | Option.none => false
  | Option.some t => !t.data.isEmpty && str_types.any (fun kw => pyIn kw (pyUpper t))

/-- Embedding of `BaseMetric`: the per-metric schema fields. -/
structure BaseMetric where
  id : Int := 0
  metric_name : String
  verbose_name : Option String := Option.none
  metric_type : Option String := Option.none
  description : Option String := Option.none
  is_restricted : Bool := false
  d3format : Option String := Option.none
deriving Repr, DecidableEq

/-- The property `BaseMetric.perm` raises `NotImplementedError` on the interface type. -/
def BaseMetric.perm (_m : BaseMetric) : Except PyError String :=
  Except.error PyError.notImplementedError

/-- Embedding of `BaseDatasource`.  `type`, `baselink` and `name` are the
class-level attributes a concrete connector subclass must define; an
instantiated datasource always carries them, so they are plain strings. -/
structure BaseDatasource where
  type : String
  baselink : String
  name : String
  id : Int := 0
  description : Option String := Option.none
  default_endpoint : Option String := Option.none
  is_featured : Bool := false
  filter_select_enabled : Bool := false
  offset : Int := 0
  cache_timeout : Option Int := Option.none
  params : Option String := Option.none
  perm : Option String := Option.none
  columns : List BaseColumn := []
  metrics : List BaseMetric := []
deriving Repr, DecidableEq

namespace BaseDatasource

/-- The property `uid`, built as `"{self.id}__{self.type}"`. -/
def uid (d : BaseDatasource) : String :=
  toString d.id ++ "__" ++ d.type

/-- The property `column_names`: `sorted([c.column_name for c in self.columns])`. -/
def column_names (d : BaseDatasource) : List String :=
  List.insertionSort strle (d.columns.map (fun c => c.column_name))

/-- The property `main_dttm_col`. -/
def main_dttm_col (_d : BaseDatasource) : String := "timestamp"

/-- The property `groupby_column_names`:
`sorted([c.column_name for c in self.columns if c.groupby])`. -/
def groupby_column_names (d : BaseDatasource) : List String :=
  List.insertionSort strle
    ((d.columns.filter (fun c => c.groupby)).map (fun c => c.column_name))

/-- The property `filterable_column_names`:
`sorted([c.column_name for c in self.columns if c.filterable])`. -/
def filterable_column_names (d : BaseDatasource) : List String :=
  List.insertionSort strle
    ((d.columns.filter (fun c => c.filterable)).map (fun c => c.column_name))

/-- The property `dttm_cols`. -/
def dttm_cols (_d : BaseDatasource) : List String := []

/-- The property `url`, built as `/{}/edit/{}` from baselink and id. -/
def url (d : BaseDatasource) : String :=
  "/" ++ d.baselink ++ "/edit/" ++ toString d.id

/-- The property `explore_url`: the configured `default_endpoint` when truthy, otherwise
the synthesized per-type/per-id path. -/
def explore_url (d : BaseDatasource) : String :=
  if truthyStr d.default_endpoint then d.default_endpoint.getD ""
  else "/superset/explore/" ++ d.type ++ "/" ++ toString d.id ++ "/"

/-- Insertion into a Python dict rendered as an insertion-ordered association
list: an existing key keeps its position and gets the new value, a new key is
appended at the end. -/
def dictInsert (m : List (String × String)) (k v : String) : List (String × String) :=
  if m.any (fun p => p.1 = k) then
    m.map (fun p => if p.1 = k then (k, v) else p)
  else m ++ [(k, v)]

/-- The property `column_formats`: the dict comprehension
`{m.metric_name: m.d3format for m in self.metrics if m.d3format}`. -/
def column_formats (d : BaseDatasource) : List (String × String) :=
  (d.metrics.filter (fun m => truthyStr m.d3format)).foldl
    (fun acc m => dictInsert acc m.metric_name (m.d3format.getD "")) []

/-- The list comprehension inside `metrics_combo`:
`[(m.metric_name, m.verbose_name or m.metric_name) for m in self.metrics]`. -/
def metric_entries (d : BaseDatasource) : List (String × String) :=
  d.metrics.map (fun m => (m.metric_name, orElseStr m.verbose_name m.metric_name))

/-- The property `metrics_combo`: `(metric_name, verbose_name or metric_name)` pairs,
stably sorted by the second component (`key=lambda x: x[1]`). -/
def metrics_combo (d : BaseDatasource) : List (String × String) :=
  List.insertionSort labelLe (metric_entries d)

/-- The loop body of `data`: for each name `s` (in order), append the
ascending choice then the descending choice. -/
def orderChoicesFor : List String → List (String × String)
  | [] => []
  | s :: rest =>
      (jsonDumpsStrBool s true, s ++ " [asc]") ::
        (jsonDumpsStrBool s false, s ++ " [desc]") :: orderChoicesFor rest

/-- The local variable `order_by_choices` of `data`: the loop runs over
`sorted(self.column_names)`. -/
def order_by_choices (d : BaseDatasource) : List (String × String) :=
  orderChoicesFor (List.insertionSort strle d.column_names)

/-- A `(value, label)` string pair as the Python tuple it is. -/
def pairVal (p : String × String) : PyVal :=
  PyVal.tuple (PyVal.str p.1) (PyVal.str p.2)

/-- The property `data`: the snapshot dictionary sent to the frontend, as the
insertion-ordered association list of the Python dict literal. -/
def data (d : BaseDatasource) : List (String × PyVal) :=
  [("all_cols", PyVal.list ((choicify d.column_names).map pairVal)),
   ("column_formats",
     PyVal.dict ((column_formats d).map (fun p => (p.1, PyVal.str p.2)))),
   ("edit_url", PyVal.str d.url),
   ("filter_select", PyVal.bool d.filter_select_enabled),
   ("filterable_cols", PyVal.list ((choicify d.filterable_column_names).map pairVal)),
   ("gb_cols", PyVal.list ((choicify d.groupby_column_names).map pairVal)),
   ("id", PyVal.int d.id),
   ("metrics_combo", PyVal.list ((metrics_combo d).map pairVal)),
   ("name", PyVal.str d.name),
   ("order_by_choices", PyVal.list ((order_by_choices d).map pairVal)),
   ("type", PyVal.str d.type)]

/-- The method `get_query_str` raises `NotImplementedError` on the interface type. -/
def get_query_str (_d : BaseDatasource) (_query_obj : QueryObj) : Except PyError String :=
  Except.error PyError.notImplementedError

/-- The method `query` raises `NotImplementedError` on the interface type.  The result
type stands for `superset.models.helpers.QueryResult`. -/
def query (_d : BaseDatasource) (_query_obj : QueryObj) : Except PyError (List (List PyVal)) :=
  Except.error PyError.notImplementedError

/-- The method `values_for_column` raises `NotImplementedError` on the interface type. -/
def values_for_column (_d : BaseDatasource) (_column_name : String)
    (_limit : Int) : Except PyError (List PyVal) :=
  Except.error PyError.notImplementedError

end BaseDatasource

/-! ### Concrete sample records used for witnesses and counterexamples -/

/-- A groupby-able, filterable string column. -/
def colA : BaseColumn :=
  { column_name := "a", type := Option.some "VARCHAR(255)", groupby := true,
    filterable := true }

/-- A groupby-able numeric column. -/
def colB : BaseColumn :=
  { column_name := "b", type := Option.some "BIGINT", groupby := true }

/-- A column with the deliberately ambiguous type string. -/
def colCharDate : BaseColumn :=
  { column_name := "cd", type := Option.some "char_date" }

/-- A metric with a verbose name and a d3 format. -/
def metricOne : BaseMetric :=
  { metric_name := "sum__m", verbose_name := Option.some "Total", d3format := Option.some ".3s" }

/-- A metric without a verbose name. -/
def metricTwo : BaseMetric :=
  { metric_name := "avg__m" }

/-- A small concrete datasource. -/
def dsSample : BaseDatasource :=
  { type := "table", baselink := "tablemodelview", name := "wiki", id := 7,
    filter_select_enabled := true, columns := [colB, colA],
    metrics := [metricOne, metricTwo] }

/-- The same datasource with its columns in the opposite order. -/
def dsSamplePerm : BaseDatasource :=
  { type := "table", baselink := "tablemodelview", name := "wiki", id := 7,
    filter_select_enabled := true, columns := [colA, colB],
    metrics := [metricOne, metricTwo] }

/-- A datasource whose `default_endpoint` is set to the empty string. -/
def dsEmptyEndpoint : BaseDatasource :=
  { type := "table", baselink := "tablemodelview", name := "n", id := 1,
    default_endpoint := Option.some "" }

/-- A datasource with a truthy `default_endpoint`. -/
def dsWithEndpoint : BaseDatasource :=
  { type := "druid", baselink := "druiddatasourcemodelview", name := "n", id := 2,
    default_endpoint := Option.some "/custom/endpoint" }

/-- A datasource with no `default_endpoint`. -/
def dsNoEndpoint : BaseDatasource :=
  { type := "table", baselink := "tablemodelview", name := "n", id := 3 }

/-- A datasource sharing the id of `dsNoEndpoint` but with a different type. -/
def dsOtherType : BaseDatasource :=
  { type := "druid", baselink := "druiddatasourcemodelview", name := "n", id := 3 }

/-! ### Order-theoretic facts about the Python string comparison -/

theorem charListLe_refl : ∀ as : List Char, charListLe as as = true
  | [] => rfl
  | a :: as => by
    simpa [charListLe, lt_irrefl a] using charListLe_refl as

theorem charListLe_total : ∀ as bs : List Char,
    charListLe as bs = true ∨ charListLe bs as = true
  | [], _ => Or.inl rfl
  | _ :: _, [] => Or.inr rfl
  | a :: as, b :: bs => by
    by_cases hab : a < b
    · exact Or.inl (by simp [charListLe, hab])
    · by_cases hba : b < a
      · exact Or.inr (by simp [charListLe, hba])
      · rcases charListLe_total as bs with h | h
        · exact Or.inl (by simpa [charListLe, hab, hba] using h)
        · exact Or.inr (by simpa [charListLe, hab, hba] using h)

theorem charListLe_trans : ∀ as bs cs : List Char,
    charListLe as bs = true → charListLe bs cs = true → charListLe as cs = true
  | [], _, _, _, _ => rfl
  | _ :: _, [], _, h1, _ => by simp [charListLe] at h1
  | _ :: _, _ :: _, [], _, h2 => by simp [charListLe] at h2
  | a :: as, b :: bs, c :: cs, h1, h2 => by
    by_cases hab : a < b
    · by_cases hbc : b < c
      · simp [charListLe, lt_trans hab hbc]
      · have hcb : ¬ c < b := by
          intro hcb
          simp [charListLe, hbc, hcb] at h2
        have hbec : b = c := le_antisymm (not_lt.mp hcb) (not_lt.mp hbc)
        subst hbec
        simp [charListLe, hab]
    · have hba : ¬ b < a := by
        intro hba
        simp [charListLe, hab, hba] at h1
      have haeb : a = b := le_antisymm (not_lt.mp hba) (not_lt.mp hab)
      subst haeb
      simp only [charListLe, if_neg hab, if_neg hba] at h1 ⊢
      by_cases hac : a < c
      · simp [hac]
      · have hca : ¬ c < a := by
          intro hca
          simp [charListLe, hac, hca] at h2
        simp only [charListLe, if_neg hac, if_neg hca] at h2 ⊢
        exact charListLe_trans as bs cs h1 h2

theorem charListLe_antisymm : ∀ as bs : List Char,
    charListLe as bs = true → charListLe bs as = true → as = bs
  | [], [], _, _ => rfl
  | [], _ :: _, _, h2 => by simp [charListLe] at h2
  | _ :: _, [], h1, _ => by simp [charListLe] at h1
  | a :: as, b :: bs, h1, h2 => by
    by_cases hab : a < b
    · simp [charListLe, hab, lt_asymm hab] at h2
    · by_cases hba : b < a
      · simp [charListLe, hab, hba] at h1
      · have haeb : a = b := le_antisymm (not_lt.mp hba) (not_lt.mp hab)
        subst haeb
        simp only [charListLe, if_neg hab] at h1 h2
        exact congrArg (a :: ·) (charListLe_antisymm as bs h1 h2)

instance : IsRefl String strle := ⟨fun a => charListLe_refl a.data⟩

instance : IsTotal String strle := ⟨fun a b => charListLe_total a.data b.data⟩

instance : IsTrans String strle := ⟨fun a b c => charListLe_trans a.data b.data c.data⟩

instance : IsAntisymm String strle :=
  ⟨fun a b h1 h2 => by
    cases a with
    | mk as =>
      cases b with
      | mk bs => exact congrArg String.mk (charListLe_antisymm as bs h1 h2)⟩

instance : IsRefl (String × String) labelLe := ⟨fun a => charListLe_refl a.2.data⟩

instance : IsTotal (String × String) labelLe :=
  ⟨fun a b => charListLe_total a.2.data b.2.data⟩

instance : IsTrans (String × String) labelLe :=
  ⟨fun a b c => charListLe_trans a.2.data b.2.data c.2.data⟩

/-! ### General helper lemmas -/

theorem data_ne_nil_of_ne_empty {s : String} (h : s ≠ "") : s.data ≠ [] := by
  intro hd
  apply h
  apply String.toList_inj.mp
  rw [String.toList_empty]
  exact hd

theorem truthyStr_of_some_ne {s : String} (h : s ≠ "") :
    truthyStr (Option.some s) = true := by
  unfold truthyStr
  simp only [Bool.not_eq_true', Bool.not_eq_false]
  exact List.isEmpty_eq_false.mpr (data_ne_nil_of_ne_empty h)

/-! ### Claim theorems -/

/-- C8: `get_query_str`, `query` and `values_for_column` on the base
datasource type, and `BaseMetric.perm` on the base metric type, signal
`NotImplementedError` for every argument, and no other error kind exists in
this layer. -/
theorem not_implemented_on_base :
    (∀ (d : BaseDatasource) (q : QueryObj),
      d.get_query_str q = Except.error PyError.notImplementedError) ∧
    (∀ (d : BaseDatasource) (q : QueryObj),
      d.query q = Except.error PyError.notImplementedError) ∧
    (∀ (d : BaseDatasource) (c : String) (limit : Int),
      d.values_for_column c limit = Except.error PyError.notImplementedError) ∧
    (∀ m : BaseMetric, m.perm = Except.error PyError.notImplementedError) ∧
    (∀ e : PyError, e = PyError.notImplementedError) :=
  ⟨fun _ _ => rfl, fun _ _ => rfl, fun _ _ _ => rfl, fun _ => rfl,
   fun e => by cases e; rfl⟩

/-- C9: when `default_endpoint` is falsy (unset, or set to the empty string),
`explore_url` falls through to the synthesized path: the dispatch is on
truthiness. -/
theorem explore_url_falsy_fallthrough (d : BaseDatasource)
    (h : truthyStr d.default_endpoint = false) :
    d.explore_url = "/superset/explore/" ++ d.type ++ "/" ++ toString d.id ++ "/" := by
  unfold BaseDatasource.explore_url
  rw [h]
  simp

/-- C9 witness: evaluated on the datasource whose endpoint is the empty
string. -/
theorem explore_url_falsy_fallthrough_witness :
    dsEmptyEndpoint.explore_url =
      "/superset/explore/" ++ dsEmptyEndpoint.type ++ "/" ++
        toString dsEmptyEndpoint.id ++ "/" :=
  explore_url_falsy_fallthrough dsEmptyEndpoint (by decide)

/-- C6 counterexample: `dsEmptyEndpoint` has its `default_endpoint` set (to
the empty string), yet `explore_url` does not return it verbatim — it returns
the synthesized path instead. -/
theorem explore_url_set_not_verbatim_counterexample :
    dsEmptyEndpoint.default_endpoint = Option.some "" ∧
    dsEmptyEndpoint.explore_url ≠ "" ∧
    dsEmptyEndpoint.explore_url = "/superset/explore/table/1/" := by
  refine ⟨rfl, ?_, ?_⟩ <;> decide

/-- C6 (amended): `explore_url` returns `default_endpoint` verbatim when it is
set to a truthy (non-empty) value, and otherwise (unset or empty) returns the
synthesized path containing the type and id of the datasource. -/
theorem explore_url_cases (d : BaseDatasource) :
    (∀ s : String, d.default_endpoint = Option.some s → s ≠ "" →
      d.explore_url = s) ∧
    (truthyStr d.default_endpoint = false →
      d.explore_url = "/superset/explore/" ++ d.type ++ "/" ++ toString d.id ++ "/") := by
  constructor
  · intro s hs hne
    unfold BaseDatasource.explore_url
    rw [hs, truthyStr_of_some_ne hne]
    simp
  · intro h
    unfold BaseDatasource.explore_url
    rw [h]
    simp

/-- C6 witness: both branches evaluated on concrete datasources. -/
theorem explore_url_cases_witness :
    dsWithEndpoint.explore_url = "/custom/endpoint" ∧
    dsNoEndpoint.explore_url =
      "/superset/explore/" ++ dsNoEndpoint.type ++ "/" ++ toString dsNoEndpoint.id ++ "/" :=
  ⟨(explore_url_cases dsWithEndpoint).1 "/custom/endpoint" rfl (by decide),
   (explore_url_cases dsNoEndpoint).2 (by decide)⟩

/-- C7: two datasources with the same id but different types have different
`uid`s. -/
theorem uid_unique_across_types (d1 d2 : BaseDatasource) (hid : d1.id = d2.id)
    (hty : d1.type ≠ d2.type) : d1.uid ≠ d2.uid := by
  intro h
  apply hty
  unfold BaseDatasource.uid at h
  rw [hid] at h
  have hdata := congrArg String.data h
  simp only [String.data_append, List.append_assoc] at hdata
  have h1 := List.append_cancel_left hdata
  have h2 := List.append_cancel_left h1
  exact String.toList_inj.mp h2

/-- C7 witness: two concrete datasources with equal ids and different types. -/
theorem uid_unique_across_types_witness :
    dsNoEndpoint.id = dsOtherType.id ∧ dsNoEndpoint.uid ≠ dsOtherType.uid :=
  ⟨rfl, uid_unique_across_types dsNoEndpoint dsOtherType rfl (by decide)⟩

theorem guarded_any_iff (kws : List String) (t : String)
    (hempty : kws.any (fun kw => pyIn kw (pyUpper (String.mk []))) = false) :
    (!t.data.isEmpty && kws.any (fun kw => pyIn kw (pyUpper t))) = true ↔
      kws.any (fun kw => pyIn kw (pyUpper t)) = true := by
  cases t with
  | mk l =>
    cases l with
    | nil => simp [hempty]
    | cons c cs => simp [List.isEmpty]

/-- C5: for a column whose type string is present, `is_num` holds exactly when
the uppercased type string contains one of the numeric keywords as a
substring, and `is_time`/`is_string` follow the analogous rules for their
vocabularies; a single type string (such as `"char_date"`) may satisfy more
than one classifier. -/
theorem classifiers_by_substring :
    (∀ (c : BaseColumn) (t : String), c.type = Option.some t →
      ((c.is_num = true ↔ num_types.any (fun kw => pyIn kw (pyUpper t)) = true) ∧
       (c.is_time = true ↔ date_types.any (fun kw => pyIn kw (pyUpper t)) = true) ∧
       (c.is_string = true ↔ str_types.any (fun kw => pyIn kw (pyUpper t)) = true))) ∧
    (colCharDate.is_time = true ∧ colCharDate.is_string = true ∧
      colCharDate.is_num = false) := by
  constructor
  · intro c t h
    refine ⟨?_, ?_, ?_⟩
    · unfold BaseColumn.is_num
      rw [h]
      exact guarded_any_iff num_types t (by decide)
    · unfold BaseColumn.is_time
      rw [h]
      exact guarded_any_iff date_types t (by decide)
    · unfold BaseColumn.is_string
      rw [h]
      exact guarded_any_iff str_types t (by decide)
  · exact ⟨by decide, by decide, by decide⟩

/-- C5 witness: the classifier equivalence evaluated on the concrete numeric
column. -/
theorem classifiers_by_substring_witness : colB.is_num = true :=
  ((classifiers_by_substring.1 colB "BIGINT" rfl).1).mpr (by decide)

theorem count_names_filtered_le (cols : List BaseColumn) (p : BaseColumn → Bool)
    (s : String) :
    (List.insertionSort strle ((cols.filter p).map (fun c => c.column_name))).count s ≤
      (List.insertionSort strle (cols.map (fun c => c.column_name))).count s := by
  rw [(List.perm_insertionSort strle _).count_eq, (List.perm_insertionSort strle _).count_eq]
  have hsub : List.Sublist (cols.filter p) cols := List.filter_sublist cols
  exact (hsub.map (fun c => c.column_name)).count_le s

/-- C10: `groupby_column_names` and `filterable_column_names` are sub-multisets
of `column_names`: each name occurs in them at most as often as in
`column_names`. -/
theorem capability_lists_submultiset (d : BaseDatasource) :
    (∀ s : String, (d.groupby_column_names).count s ≤ (d.column_names).count s) ∧
    (∀ s : String, (d.filterable_column_names).count s ≤ (d.column_names).count s) :=
  ⟨fun s => count_names_filtered_le d.columns (fun c => c.groupby) s,
   fun s => count_names_filtered_le d.columns (fun c => c.filterable) s⟩

theorem insertionSort_strle_eq_of_perm {l l' : List String} (h : l.Perm l') :
    List.insertionSort strle l = List.insertionSort strle l' :=
  List.eq_of_perm_of_sorted
    ((List.perm_insertionSort strle l).trans
      (h.trans (List.perm_insertionSort strle l').symm))
    (List.sorted_insertionSort strle l) (List.sorted_insertionSort strle l')

/-- C3: the three column-name lists are sorted ascending in the lexicographic
(code-point) order, and they do not depend on the order of the columns
collection. -/
theorem column_name_lists_sorted (d : BaseDatasource) :
    List.Sorted strle d.column_names ∧
    List.Sorted strle d.groupby_column_names ∧
    List.Sorted strle d.filterable_column_names ∧
    ∀ d' : BaseDatasource, d.columns.Perm d'.columns →
      d.column_names = d'.column_names ∧
      d.groupby_column_names = d'.groupby_column_names ∧
      d.filterable_column_names = d'.filterable_column_names := by
  refine ⟨List.sorted_insertionSort strle _, List.sorted_insertionSort strle _,
    List.sorted_insertionSort strle _, ?_⟩
  intro d' hperm
  exact ⟨insertionSort_strle_eq_of_perm (hperm.map _),
    insertionSort_strle_eq_of_perm ((hperm.filter _).map _),
    insertionSort_strle_eq_of_perm ((hperm.filter _).map _)⟩

/-- C3 witness: sortedness and permutation-invariance evaluated on the sample
datasource and its column-permuted variant. -/
theorem column_name_lists_sorted_witness :
    List.Sorted strle dsSample.column_names ∧
    dsSample.column_names = dsSamplePerm.column_names ∧
    dsSample.groupby_column_names = dsSamplePerm.groupby_column_names :=
  ⟨(column_name_lists_sorted dsSample).1,
   ((column_name_lists_sorted dsSample).2.2.2 dsSamplePerm (by decide)).1,
   ((column_name_lists_sorted dsSample).2.2.2 dsSamplePerm (by decide)).2.1⟩

theorem orderChoicesFor_length : ∀ l : List String,
    (BaseDatasource.orderChoicesFor l).length = 2 * l.length
  | [] => rfl
  | s :: rest => by
    have ih := orderChoicesFor_length rest
    simp only [BaseDatasource.orderChoicesFor, List.length_cons, ih]
    omega

theorem orderChoicesFor_getElem : ∀ (l : List String) (i : Nat) (s : String),
    l[i]? = some s →
    (BaseDatasource.orderChoicesFor l)[2 * i]? =
      some (jsonDumpsStrBool s true, s ++ " [asc]") ∧
    (BaseDatasource.orderChoicesFor l)[2 * i + 1]? =
      some (jsonDumpsStrBool s false, s ++ " [desc]")
  | [], i, s, h => by simp at h
  | a :: rest, 0, s, h => by
    have ha : a = s := by simpa using h
    subst ha
    constructor
    · rfl
    · show ((jsonDumpsStrBool a true, a ++ " [asc]") ::
          (jsonDumpsStrBool a false, a ++ " [desc]") ::
          BaseDatasource.orderChoicesFor rest)[2 * 0 + 1]? = _
      norm_num
  | a :: rest, i + 1, s, h => by
    have ih := orderChoicesFor_getElem rest i s (by simpa using h)
    have e1 : 2 * (i + 1) = 2 * i + 1 + 1 := by omega
    rw [e1]
    show ((jsonDumpsStrBool a true, a ++ " [asc]") ::
        (jsonDumpsStrBool a false, a ++ " [desc]") ::
        BaseDatasource.orderChoicesFor rest)[2 * i + 1 + 1]? = _ ∧
      ((jsonDumpsStrBool a true, a ++ " [asc]") ::
        (jsonDumpsStrBool a false, a ++ " [desc]") ::
        BaseDatasource.orderChoicesFor rest)[2 * i + 1 + 1 + 1]? = _
    simp only [List.getElem?_cons_succ]
    exact ih

/-- C2: `order_by_choices` has exactly `2 × N` entries for `N` columns,
alternating: the entry at position `2·i` is the ascending choice and the entry
at position `2·i + 1` the descending choice for the `i`-th name in sorted
order, with the JSON-encoded `[name, bool]` pair as the value component. -/
theorem order_by_choices_pairs (d : BaseDatasource) :
    (d.order_by_choices).length = 2 * d.columns.length ∧
    ∀ (i : Nat) (s : String),
      (List.insertionSort strle d.column_names)[i]? = some s →
      (d.order_by_choices)[2 * i]? = some (jsonDumpsStrBool s true, s ++ " [asc]") ∧
      (d.order_by_choices)[2 * i + 1]? =
        some (jsonDumpsStrBool s false, s ++ " [desc]") := by
  constructor
  · unfold BaseDatasource.order_by_choices
    rw [orderChoicesFor_length, List.length_insertionSort]
    unfold BaseDatasource.column_names
    rw [List.length_insertionSort, List.length_map]
  · intro i s h
    exact orderChoicesFor_getElem _ i s h

/-- C2 witness: the first ascending/descending pair of the sample
datasource. -/
theorem order_by_choices_pairs_witness :
    dsSample.order_by_choices.length = 2 * dsSample.columns.length ∧
    dsSample.order_by_choices[0]? = some (jsonDumpsStrBool "a" true, "a" ++ " [asc]") ∧
    dsSample.order_by_choices[1]? =
      some (jsonDumpsStrBool "a" false, "a" ++ " [desc]") :=
  ⟨(order_by_choices_pairs dsSample).1,
   ((order_by_choices_pairs dsSample).2 0 "a" (by decide)).1,
   ((order_by_choices_pairs dsSample).2 0 "a" (by decide)).2⟩

/-- C4: `metrics_combo` is sorted ascending by the display label (the verbose
name or, failing that, the metric name), it is a permutation of the
`(metric_name, label)` pairs taken in input order, and for every label the
entries carrying that label appear in their original input order (stability,
stated as preservation of every per-label filtered sublist). -/
theorem metrics_combo_sorted_stable (d : BaseDatasource) :
    List.Sorted labelLe d.metrics_combo ∧
    List.Perm d.metrics_combo d.metric_entries ∧
    ∀ lab : String,
      d.metrics_combo.filter (fun p => p.2 == lab) =
        d.metric_entries.filter (fun p => p.2 == lab) := by
  refine ⟨List.sorted_insertionSort labelLe _, List.perm_insertionSort labelLe _, ?_⟩
  intro lab
  have hpw : (d.metric_entries.filter (fun p => p.2 == lab)).Pairwise labelLe := by
    apply List.pairwise_of_forall_mem_list
    intro x hx y hy
    have hx2 : x.2 = lab := by simpa using (List.mem_filter.mp hx).2
    have hy2 : y.2 = lab := by simpa using (List.mem_filter.mp hy).2
    show charListLe x.2.data y.2.data = true
    rw [hx2, hy2]
    exact charListLe_refl _
  have hfsub : List.Sublist (d.metric_entries.filter (fun p => p.2 == lab))
      d.metric_entries := List.filter_sublist _
  have hsub : List.Sublist (d.metric_entries.filter (fun p => p.2 == lab))
      d.metrics_combo := List.sublist_insertionSort hpw hfsub
  have hsub2 : List.Sublist (d.metric_entries.filter (fun p => p.2 == lab))
      (d.metrics_combo.filter (fun p => p.2 == lab)) := by
    have hmem : ∀ p ∈ d.metric_entries.filter (fun p => p.2 == lab),
        (p.2 == lab) = true := fun p hp => (List.mem_filter.mp hp).2
    have := hsub.filter (fun p => p.2 == lab)
    rwa [List.filter_eq_self.mpr hmem] at this
  have hlen : (d.metrics_combo.filter (fun p => p.2 == lab)).length =
      (d.metric_entries.filter (fun p => p.2 == lab)).length :=
    ((List.perm_insertionSort labelLe _).filter _).length_eq
  exact (hsub2.eq_of_length hlen.symm).symm

/-- C1: the `data` dictionary has exactly the eleven enumerated keys, in the
insertion order of the source, and each key is associated to the value built from
the corresponding derived property. -/
theorem data_keys_exact (d : BaseDatasource) :
    (d.data).map Prod.fst =
      ["all_cols", "column_formats", "edit_url", "filter_select",
       "filterable_cols", "gb_cols", "id", "metrics_combo", "name",
       "order_by_choices", "type"] ∧
    (d.data).lookup "all_cols" =
      some (PyVal.list ((choicify d.column_names).map BaseDatasource.pairVal)) ∧
    (d.data).lookup "column_formats" =
      some (PyVal.dict (d.column_formats.map (fun p => (p.1, PyVal.str p.2)))) ∧
    (d.data).lookup "edit_url" = some (PyVal.str d.url) ∧
    (d.data).lookup "filter_select" = some (PyVal.bool d.filter_select_enabled) ∧
    (d.data).lookup "filterable_cols" =
      some (PyVal.list ((choicify d.filterable_column_names).map BaseDatasource.pairVal)) ∧
    (d.data).lookup "gb_cols" =
      some (PyVal.list ((choicify d.groupby_column_names).map BaseDatasource.pairVal)) ∧
    (d.data).lookup "id" = some (PyVal.int d.id) ∧
    (d.data).lookup "metrics_combo" =
      some (PyVal.list (d.metrics_combo.map BaseDatasource.pairVal)) ∧
    (d.data).lookup "name" = some (PyVal.str d.name) ∧
    (d.data).lookup "order_by_choices" =
      some (PyVal.list (d.order_by_choices.map BaseDatasource.pairVal)) ∧
    (d.data).lookup "type" = some (PyVal.str d.type) :=
  ⟨rfl, rfl, rfl, rfl, rfl, rfl, rfl, rfl, rfl, rfl, rfl, rfl⟩

end Superset
